import Mathlib

/-!
# Verification of the Image Arrow Annotator core

Shallow embedding of the annotation tool (`components/ImageCanvas.tsx`,
`components/CoordinatesOutput.tsx`) and proofs about its geometry engine,
drawing state machine and coordinate exporter.

JavaScript numbers are modelled as real numbers (exact arithmetic).  Where a
JavaScript arithmetic operation can produce a non-finite value (division by
zero yielding `NaN`/`Infinity`), a second, `Option`-valued translation of the
same source function makes this explicit (`jsDiv` returns `none` exactly when
the divisor is zero).
-/

namespace Annotator

/-- `interface Point { x: number; y: number }` from ImageCanvas.tsx. -/
@[ext]
structure Point where
  x : ℝ
  y : ℝ

/-- `interface Line` from ImageCanvas.tsx.  The TypeScript field `end` is a
Lean keyword and is written `«end»`.  Optional fields become `Option`;
`isEndSegment?: boolean` is `Option Bool` (absent = `none`, JavaScript treats
`undefined` as falsy). -/
structure Line where
  start : Point
  «end» : Point
  controlPoint : Option Point
  curvature : ℝ
  segmentId : Option String
  isEndSegment : Option Bool

/-- `interface TextBox` from ImageCanvas.tsx. -/
structure TextBox where
  id : String
  position : Point
  text : String
  width : ℝ
  height : ℝ
  isDragging : Option Bool
  isEditing : Option Bool

/-- Division as performed by the JavaScript source: `none` exactly when the
divisor is zero, in which case JavaScript produces `NaN` or `±Infinity`,
i.e. no finite result. -/
noncomputable def jsDiv (a b : ℝ) : Option ℝ :=
  if b = 0 then none else some (a / b)

/-- `distanceToPoint` from ImageCanvas.tsx (lines 673-677). -/
noncomputable def distanceToPoint (p1 p2 : Point) : ℝ :=
  let dx := p2.x - p1.x
  let dy := p2.y - p1.y
  Real.sqrt (dx * dx + dy * dy)

/-- `calculateControlPoint` from ImageCanvas.tsx (lines 204-224), with real
division (division by zero yields `0` here; see `calculateControlPointFin`
for the translation that tracks non-finite results). -/
noncomputable def calculateControlPoint (start «end» : Point) (curvature : ℝ) : Point :=
  let midX := (start.x + «end».x) / 2
  let midY := (start.y + «end».y) / 2
  let dx := «end».x - start.x
  let dy := «end».y - start.y
  let length := Real.sqrt (dx * dx + dy * dy)
  let perpX := -dy / length
  let perpY := dx / length
  let controlX := midX + perpX * curvature * length / 2
  let controlY := midY + perpY * curvature * length / 2
  ⟨controlX, controlY⟩

/-- `calculateControlPoint` again, but with the two divisions performed by
`jsDiv`, so that the result is `none` exactly when the source divides by
zero (and the JavaScript control point is a non-finite point). -/
noncomputable def calculateControlPointFin (start «end» : Point) (curvature : ℝ) :
    Option Point := do
  let midX := (start.x + «end».x) / 2
  let midY := (start.y + «end».y) / 2
  let dx := «end».x - start.x
  let dy := «end».y - start.y
  let length := Real.sqrt (dx * dx + dy * dy)
  let perpX ← jsDiv (-dy) length
  let perpY ← jsDiv dx length
  some ⟨midX + perpX * curvature * length / 2, midY + perpY * curvature * length / 2⟩

/-- `distanceToLineSegment` from ImageCanvas.tsx (lines 679-710).  The source
initialises `param = -1` and overwrites it with `dot / lenSq` only under the
guard `lenSq !== 0`. -/
noncomputable def distanceToLineSegment (p start «end» : Point) : ℝ :=
  let A := p.x - start.x
  let B := p.y - start.y
  let C := «end».x - start.x
  let D := «end».y - start.y
  let dot := A * C + B * D
  let lenSq := C * C + D * D
  let param := if lenSq ≠ 0 then dot / lenSq else -1
  let xx := if param < 0 then start.x else if param > 1 then «end».x else start.x + param * C
  let yy := if param < 0 then start.y else if param > 1 then «end».y else start.y + param * D
  let dx := p.x - xx
  let dy := p.y - yy
  Real.sqrt (dx * dx + dy * dy)

/-- `distanceToLineSegment` with its single division performed by `jsDiv`:
`none` would signal an unguarded division by zero. -/
noncomputable def distanceToLineSegmentFin (p start «end» : Point) : Option ℝ := do
  let A := p.x - start.x
  let B := p.y - start.y
  let C := «end».x - start.x
  let D := «end».y - start.y
  let dot := A * C + B * D
  let lenSq := C * C + D * D
  let param ← if lenSq ≠ 0 then jsDiv dot lenSq else some (-1)
  let xx := if param < 0 then start.x else if param > 1 then «end».x else start.x + param * C
  let yy := if param < 0 then start.y else if param > 1 then «end».y else start.y + param * D
  let dx := p.x - xx
  let dy := p.y - yy
  some (Real.sqrt (dx * dx + dy * dy))

/-! ## Coordinate Exporter (CoordinatesOutput.tsx)

`formatCoordinates` is embedded as a structured document: every numeric field
the source interpolates into its output string appears as a field here, in
source order.  JavaScript `Math.round` rounds half toward `+∞`, which is
Mathlib's `round` (`round x = ⌊x + 1/2⌋`). -/

/-- `Math.round(x * 100) / 100` — rounding to 2 decimal places as in
CoordinatesOutput.tsx. -/
noncomputable def round2 (x : ℝ) : ℝ :=
  ((round (x * 100) : ℤ) : ℝ) / 100

/-- JavaScript `Math.atan2(y, x)` (the `-0` inputs of IEEE arithmetic are not
modelled; all uses in this file are on exact reals). -/
noncomputable def atan2 (y x : ℝ) : ℝ :=
  if 0 < x then Real.arctan (y / x)
  else if x < 0 then
    (if 0 ≤ y then Real.arctan (y / x) + Real.pi else Real.arctan (y / x) - Real.pi)
  else if 0 < y then Real.pi / 2
  else if y < 0 then -(Real.pi / 2)
  else 0

/-- One line of a "Connected Segment" block (CoordinatesOutput.tsx lines
74-106): rounded start/end, curvature and control point only when the
curvature is nonzero, derived length and angle, and the Yes/No
`isEndSegment` flag (truthiness of the optional field). -/
structure SegLineEntry where
  startX : ℝ
  startY : ℝ
  endX : ℝ
  endY : ℝ
  curvature : Option ℝ
  controlPoint : Option (ℝ × ℝ)
  length : ℝ
  angle : ℝ
  isEndSegment : Bool

/-- One standalone "Arrow N" block (CoordinatesOutput.tsx lines 110-141). -/
structure ArrowEntry where
  startX : ℝ
  startY : ℝ
  endX : ℝ
  endY : ℝ
  curvature : Option ℝ
  controlPoint : Option (ℝ × ℝ)
  length : ℝ
  angle : ℝ

/-- One "Text Box N" block (CoordinatesOutput.tsx lines 146-155). -/
structure TextBoxEntry where
  posX : ℝ
  posY : ℝ
  width : ℤ
  height : ℤ
  text : String

/-- One element of the JSON `lines` array (CoordinatesOutput.tsx lines
161-181).  `segment` is present iff `segmentId` is; its second component is
the `isEndSegment` value (`JSON.stringify` drops the key when it is
`undefined`, hence `Option Bool`). -/
structure JsonLineEntry where
  startX : ℝ
  startY : ℝ
  endX : ℝ
  endY : ℝ
  curvature : ℝ
  segment : Option (String × Option Bool)
  controlPoint : Option (ℝ × ℝ)

/-- One element of the JSON `textBoxes` array (CoordinatesOutput.tsx lines
182-190). -/
structure JsonTextBoxEntry where
  posX : ℝ
  posY : ℝ
  width : ℤ
  height : ℤ
  text : String

/-- The full output of `formatCoordinates`: either the fixed
"No annotations added yet" text or the document with its five parts in
source order. -/
inductive ExportDoc where
  | noAnnotations : ExportDoc
  | doc : List (String × List SegLineEntry) → List ArrowEntry → List TextBoxEntry →
      List JsonLineEntry → List JsonTextBoxEntry → ExportDoc

/-- Insertion into the `segments` accumulator of `groupLinesBySegment`
(JavaScript object with string keys: first-occurrence key order, values
appended in encounter order). -/
def insertSegment : List (String × List Line) → String → Line → List (String × List Line)
  | [], sid, l => [(sid, [l])]
  | (k, ls) :: rest, sid, l =>
    if k = sid then (k, ls ++ [l]) :: rest else (k, ls) :: insertSegment rest sid l

/-- `groupLinesBySegment` from CoordinatesOutput.tsx (lines 38-54). -/
def groupLinesBySegment (lines : List Line) : List (String × List Line) × List Line :=
  lines.foldl
    (fun acc line =>
      match line.segmentId with
      | some sid => (insertSegment acc.1 sid line, acc.2)
      | none => (acc.1, acc.2 ++ [line]))
    ([], [])

/-- The per-line computation of a "Connected Segment" block entry
(CoordinatesOutput.tsx lines 74-106).  Note that length and angle are
computed from the already-rounded coordinates. -/
noncomputable def exportSegLineEntry (line : Line) : SegLineEntry :=
  let startX := round2 line.start.x
  let startY := round2 line.start.y
  let endX := round2 line.«end».x
  let endY := round2 line.«end».y
  let dx := endX - startX
  let dy := endY - startY
  { startX := startX, startY := startY, endX := endX, endY := endY,
    curvature := if line.curvature ≠ 0 then some (round2 line.curvature) else none,
    controlPoint :=
      if line.curvature ≠ 0 then
        line.controlPoint.map (fun cp => (round2 cp.x, round2 cp.y))
      else none,
    length := round2 (Real.sqrt (dx * dx + dy * dy)),
    angle := round2 (atan2 dy dx * (180 / Real.pi)),
    isEndSegment := line.isEndSegment.getD false }

/-- The per-line computation of a standalone "Arrow N" block entry
(CoordinatesOutput.tsx lines 110-141); same fields as the segment variant
minus the Yes/No flag. -/
noncomputable def exportArrowEntry (line : Line) : ArrowEntry :=
  let startX := round2 line.start.x
  let startY := round2 line.start.y
  let endX := round2 line.«end».x
  let endY := round2 line.«end».y
  let dx := endX - startX
  let dy := endY - startY
  { startX := startX, startY := startY, endX := endX, endY := endY,
    curvature := if line.curvature ≠ 0 then some (round2 line.curvature) else none,
    controlPoint :=
      if line.curvature ≠ 0 then
        line.controlPoint.map (fun cp => (round2 cp.x, round2 cp.y))
      else none,
    length := round2 (Real.sqrt (dx * dx + dy * dy)),
    angle := round2 (atan2 dy dx * (180 / Real.pi)) }

/-- One JSON `lines` element (CoordinatesOutput.tsx lines 161-181). -/
noncomputable def jsonLineEntry (line : Line) : JsonLineEntry :=
  { startX := round2 line.start.x,
    startY := round2 line.start.y,
    endX := round2 line.«end».x,
    endY := round2 line.«end».y,
    curvature := if line.curvature ≠ 0 then round2 line.curvature else 0,
    segment := line.segmentId.map (fun sid => (sid, line.isEndSegment)),
    controlPoint := line.controlPoint.map (fun cp => (round2 cp.x, round2 cp.y)) }

/-- One JSON `textBoxes` element (CoordinatesOutput.tsx lines 182-190). -/
noncomputable def jsonTextBoxEntry (tb : TextBox) : JsonTextBoxEntry :=
  { posX := round2 tb.position.x, posY := round2 tb.position.y,
    width := round tb.width, height := round tb.height, text := tb.text }

/-- `formatCoordinates` from CoordinatesOutput.tsx (lines 56-196) as a
structured document.  The component receives `imageWidth`/`imageHeight` as
props but `formatCoordinates` never reads them; they are carried here as
arguments to make that fact provable. -/
noncomputable def formatCoordinates (lines : List Line) (textBoxes : List TextBox)
    (imageWidth imageHeight : ℝ) : ExportDoc :=
  if lines.length = 0 ∧ textBoxes.length = 0 then ExportDoc.noAnnotations
  else
    let g := groupLinesBySegment lines
    ExportDoc.doc
      (g.1.map (fun seg => (seg.1, seg.2.map exportSegLineEntry)))
      (g.2.map exportArrowEntry)
      (textBoxes.map (fun tb =>
        { posX := round2 tb.position.x, posY := round2 tb.position.y,
          width := round tb.width, height := round tb.height, text := tb.text }))
      (lines.map jsonLineEntry)
      (textBoxes.map jsonTextBoxEntry)

/-! ## Annotation Canvas state machine (ImageCanvas.tsx)

The React component's `useState` pieces become one record; each event
handler becomes a state transformer.  Event-supplied data (scaled position,
double-click detection, `Math.random` segment ids, `Date.now()` text-box
ids) are handler parameters.  Branch conditions on real numbers use
classical decidability. -/

open Classical

/-- Quadratic Bézier evaluation as in the curve-sampling loop of
`findClickedLine` (ImageCanvas.tsx lines 653-656). -/
noncomputable def pointOnQuadratic (start control «end» : Point) (t : ℝ) : Point :=
  ⟨(1 - t) ^ 2 * start.x + 2 * (1 - t) * t * control.x + t ^ 2 * «end».x,
   (1 - t) ^ 2 * start.y + 2 * (1 - t) * t * control.y + t ^ 2 * «end».y⟩

/-- Hit test of `findClickedLine` for one line (ImageCanvas.tsx lines
637-667): curve-aware when `curvature !== 0 && controlPoint`, otherwise
distance to the straight segment.  The source samples the curve at
`t = 0.1, 0.2, …` while `t < 1`; with exact arithmetic these are the nine
parameters `k/10`, `k = 1..9`. -/
noncomputable def lineHit (position : Point) (line : Line) : Prop :=
  if line.curvature ≠ 0 then
    match line.controlPoint with
    | some cp =>
        distanceToPoint position cp < 10 ∨ distanceToPoint position line.start < 10 ∨
        distanceToPoint position line.«end» < 10 ∨
        ∃ k : ℕ, 1 ≤ k ∧ k ≤ 9 ∧
          distanceToPoint position (pointOnQuadratic line.start cp line.«end» ((k : ℝ) / 10)) < 10
    | none => distanceToLineSegment position line.start line.«end» < 10
  else distanceToLineSegment position line.start line.«end» < 10

/-- First hit in a `(index, line)` list (the source loops from the last
drawn line down to the first). -/
noncomputable def findFirstHit (position : Point) : List (ℕ × Line) → Option ℕ
  | [] => none
  | (i, line) :: rest => if lineHit position line then some i else findFirstHit position rest

/-- `findClickedLine` from ImageCanvas.tsx (lines 635-671): scans lines from
top (last drawn) to bottom. -/
noncomputable def findClickedLine (lines : List Line) (position : Point) : Option ℕ :=
  findFirstHit position lines.enum.reverse

/-- Body of the loop of `findLineEndPoint` (ImageCanvas.tsx lines 350-368),
threshold 15, start checked before end, lowest index wins. -/
noncomputable def findLineEndPointAux (position : Point) : List Line → ℕ → Option (ℕ × Bool)
  | [], _ => none
  | line :: rest, i =>
    if distanceToPoint position line.start < 15 then some (i, true)
    else if distanceToPoint position line.«end» < 15 then some (i, false)
    else findLineEndPointAux position rest (i + 1)

/-- `findLineEndPoint` from ImageCanvas.tsx (lines 350-368). -/
noncomputable def findLineEndPoint (lines : List Line) (position : Point) : Option (ℕ × Bool) :=
  findLineEndPointAux position lines 0

/-- `isPointInTextBox` from ImageCanvas.tsx (lines 371-378). -/
def isPointInTextBox (point : Point) (textBox : TextBox) : Prop :=
  textBox.position.x ≤ point.x ∧ point.x ≤ textBox.position.x + textBox.width ∧
  textBox.position.y ≤ point.y ∧ point.y ≤ textBox.position.y + textBox.height

/-- `isPointOnResizeHandle` from ImageCanvas.tsx (lines 381-389),
`handleSize = 6`. -/
def isPointOnResizeHandle (point : Point) (textBox : TextBox) : Prop :=
  textBox.position.x + textBox.width - 6 ≤ point.x ∧
  point.x ≤ textBox.position.x + textBox.width ∧
  textBox.position.y + textBox.height - 6 ≤ point.y ∧
  point.y ≤ textBox.position.y + textBox.height

/-- Body of the loop of `findClickedTextBox` (ImageCanvas.tsx lines
392-409): top (last drawn) to bottom, resize handle checked first. -/
noncomputable def findClickedTextBoxAux (point : Point) : List TextBox → Option (String × Bool)
  | [] => none
  | textBox :: rest =>
    if isPointOnResizeHandle point textBox then some (textBox.id, true)
    else if isPointInTextBox point textBox then some (textBox.id, false)
    else findClickedTextBoxAux point rest

/-- `findClickedTextBox` from ImageCanvas.tsx (lines 392-409). -/
noncomputable def findClickedTextBox (textBoxes : List TextBox) (point : Point) :
    Option (String × Bool) :=
  findClickedTextBoxAux point textBoxes.reverse

/-- The `useState` pieces of the `ImageCanvas` component (ImageCanvas.tsx
lines 35-48), `dimensions` as `(width, height)`. -/
structure CanvasState where
  dimensions : ℝ × ℝ
  lines : List Line
  selectedLineIndex : Option ℕ
  isDrawing : Bool
  currentLine : Option Line
  extendingLine : Bool
  currentSegmentId : Option String
  textBoxes : List TextBox
  selectedTextBoxId : Option String
  isAddingTextBox : Bool
  isDraggingTextBox : Bool
  dragOffset : Point

/-- The component's initial state (all `useState` initialisers). -/
def initialState : CanvasState :=
  { dimensions := (0, 0), lines := [], selectedLineIndex := none, isDrawing := false,
    currentLine := none, extendingLine := false, currentSegmentId := none,
    textBoxes := [], selectedTextBoxId := none, isAddingTextBox := false,
    isDraggingTextBox := false, dragOffset := ⟨0, 0⟩ }

/-- `getScaledCoordinates` from ImageCanvas.tsx (lines 309-342).  The DOM
inputs (canvas bounding rect, displayed image size, event client
coordinates) are passed explicitly; the early `{x: 0, y: 0}` return for a
missing ref is kept for the `dimensions.width` falsiness test. -/
noncomputable def getScaledCoordinates (dimensions : ℝ × ℝ)
    (rectLeft rectTop rectWidth rectHeight displayedWidth displayedHeight
      clientX clientY : ℝ) : Point :=
  if dimensions.1 = 0 then ⟨0, 0⟩
  else
    let scaleX := dimensions.1 / displayedWidth
    let scaleY := dimensions.2 / displayedHeight
    let offsetX := (rectWidth - displayedWidth) / 2
    let offsetY := (rectHeight - displayedHeight) / 2
    let displayX := clientX - rectLeft - offsetX
    let displayY := clientY - rectTop - offsetY
    if displayX < 0 ∨ displayX > displayedWidth ∨ displayY < 0 ∨ displayY > displayedHeight then
      ⟨-1, -1⟩
    else ⟨displayX * scaleX, displayY * scaleY⟩

/-- `createTextBox` from ImageCanvas.tsx (lines 412-425); the
`text-${Date.now()}` id is the `newId` parameter. -/
def createTextBox (s : CanvasState) (newId : String) (position : Point) : CanvasState :=
  { s with
    textBoxes := s.textBoxes ++
      [{ id := newId, position := position, text := "Double-click to edit",
         width := 150, height := 80, isDragging := none, isEditing := some false }],
    selectedTextBoxId := some newId }

/-- `startEditingTextBox` from ImageCanvas.tsx (lines 428-490), restricted
to its state updates (the DOM textarea is outside the model; its blur
commit is the separate `finishEditing`). -/
def startEditingTextBox (s : CanvasState) (id : String) : CanvasState :=
  { s with
    textBoxes := s.textBoxes.map (fun box =>
      if box.id = id then { box with isEditing := some true }
      else { box with isEditing := some false }),
    selectedTextBoxId := some id }

/-- The `finishEditing` closure inside `startEditingTextBox` (ImageCanvas.tsx
lines 469-480): commits the textarea content on blur/Enter. -/
def finishEditing (s : CanvasState) (id raw : String) : CanvasState :=
  let newText := if raw.trim = "" then "Double-click to edit" else raw.trim
  { s with
    textBoxes := s.textBoxes.map (fun box =>
      if box.id = id then { box with text := newText, isEditing := some false } else box) }

/-- `handleMouseDown` from ImageCanvas.tsx (lines 492-633).  `position` is
the result of `getScaledCoordinates`; `isDoubleClick` is the 300 ms
`lastClickTime` test; `freshSegId` is the `generateSegmentId()` value;
`newTextBoxId` is the id `createTextBox` would allocate. -/
noncomputable def handleMouseDown (s : CanvasState) (position : Point)
    (isDoubleClick : Bool) (freshSegId newTextBoxId : String) : CanvasState :=
  if position.x = -1 ∨ position.y = -1 then s
  else
    match findClickedTextBox s.textBoxes position with
    | some (textBoxId, isResize) =>
      let s := { s with selectedLineIndex := none, selectedTextBoxId := some textBoxId }
      if isResize then
        { s with textBoxes := s.textBoxes.map (fun box =>
            if box.id = textBoxId then { box with isDragging := some false } else box) }
      else if isDoubleClick then startEditingTextBox s textBoxId
      else
        match s.textBoxes.find? (fun box => box.id == textBoxId) with
        | some textBox =>
          { s with
            dragOffset := ⟨position.x - textBox.position.x, position.y - textBox.position.y⟩,
            isDraggingTextBox := true,
            textBoxes := s.textBoxes.map (fun box =>
              if box.id = textBoxId then { box with isDragging := some true }
              else { box with isDragging := some false }) }
        | none => s
    | none =>
      if s.isAddingTextBox then
        { createTextBox s newTextBoxId position with isAddingTextBox := false }
      else
        match findLineEndPoint s.lines position with
        | some (lineIndex, isStart) =>
          match s.lines.get? lineIndex with
          | some line =>
            let segAssign :=
              match line.segmentId with
              | some sid => (sid, s.lines)
              | none =>
                (freshSegId,
                 s.lines.set lineIndex
                   { line with segmentId := some freshSegId, isEndSegment := some isStart })
            { s with
              selectedTextBoxId := none,
              isDrawing := true, extendingLine := true,
              lines := segAssign.2,
              currentSegmentId := some segAssign.1,
              currentLine := some
                { start := if isStart then line.start else line.«end», «end» := position,
                  controlPoint := none, curvature := 0,
                  segmentId := some segAssign.1, isEndSegment := some true },
              selectedLineIndex := none }
          | none => s
        | none =>
          match findClickedLine s.lines position with
          | some clickedLineIndex =>
            { s with selectedTextBoxId := none, selectedLineIndex := some clickedLineIndex,
                     isDrawing := false, extendingLine := false }
          | none =>
            { s with selectedTextBoxId := none, selectedLineIndex := none,
                     isDrawing := true, extendingLine := false, currentSegmentId := none,
                     currentLine := some
                       { start := position, «end» := position, controlPoint := none,
                         curvature := 0, segmentId := none, isEndSegment := none } }

/-- `handleMouseMove` from ImageCanvas.tsx (lines 712-742). -/
noncomputable def handleMouseMove (s : CanvasState) (position : Point) : CanvasState :=
  if position.x = -1 ∨ position.y = -1 then s
  else
    match s.selectedTextBoxId, s.isDraggingTextBox with
    | some id, true =>
      { s with textBoxes := s.textBoxes.map (fun box =>
          if box.id = id then
            { box with position := ⟨position.x - s.dragOffset.x, position.y - s.dragOffset.y⟩ }
          else box) }
    | _, _ =>
      match s.isDrawing, s.currentLine with
      | true, some cl => { s with currentLine := some { cl with «end» := position } }
      | _, _ => s

/-- `handleMouseUp` from ImageCanvas.tsx (lines 744-805).  Note that
`setSelectedLineIndex(lines.length)` reads the pre-append list, so the new
arrow (last element) becomes selected. -/
noncomputable def handleMouseUp (s : CanvasState) : CanvasState :=
  if s.isDraggingTextBox then
    { s with isDraggingTextBox := false,
             textBoxes := s.textBoxes.map (fun box =>
               if some box.id = s.selectedTextBoxId then { box with isDragging := some false }
               else box) }
  else
    match s.isDrawing, s.currentLine with
    | true, some currentLine =>
      let nearEndpoint := findLineEndPoint s.lines currentLine.«end»
      let newLine := { currentLine with curvature := 0 }
      let lines' :=
        match s.extendingLine, nearEndpoint with
        | true, some (lineIndex, isStart) =>
          match s.lines.get? lineIndex with
          | some targetLine =>
            if targetLine.segmentId ≠ currentLine.segmentId then
              (s.lines.set lineIndex
                { targetLine with segmentId := currentLine.segmentId,
                                  isEndSegment := some true })
                ++ [{ newLine with
                      «end» := if isStart then targetLine.start else targetLine.«end»,
                      isEndSegment := some false }]
            else s.lines ++ [newLine]
          | none => s.lines ++ [newLine]
        | _, _ => s.lines ++ [newLine]
      { s with lines := lines', currentLine := none,
               selectedLineIndex := some s.lines.length,
               isDrawing := false, extendingLine := false, currentSegmentId := none }
    | _, _ => { s with isDrawing := false, extendingLine := false, currentSegmentId := none }

/-- `handleMouseLeave` from ImageCanvas.tsx (lines 807-813): commits the
in-progress arrow as-is and clears only `isDrawing` (and `currentLine`). -/
def handleMouseLeave (s : CanvasState) : CanvasState :=
  match s.isDrawing, s.currentLine with
  | true, some cl => { s with lines := s.lines ++ [cl], currentLine := none, isDrawing := false }
  | _, _ => { s with isDrawing := false }

/-- The "Add Text Box" / "Cancel Text Box" button (ImageCanvas.tsx lines
864-873). -/
def toggleAddTextBox (s : CanvasState) : CanvasState :=
  { s with isAddingTextBox := !s.isAddingTextBox,
           selectedLineIndex := none, selectedTextBoxId := none }

/-- The arrow "Deselect" button (ImageCanvas.tsx lines 893-912). -/
def deselectLine (s : CanvasState) : CanvasState :=
  { s with selectedLineIndex := none }

/-- The "Edit Text" button (ImageCanvas.tsx lines 918-926), rendered only
when a text box is selected. -/
def editSelectedTextBox (s : CanvasState) : CanvasState :=
  match s.selectedTextBoxId with
  | some id => startEditingTextBox s id
  | none => s

/-- The text-box "Delete" button (ImageCanvas.tsx lines 927-937). -/
def deleteSelectedTextBox (s : CanvasState) : CanvasState :=
  { s with textBoxes := s.textBoxes.filter (fun box => !(some box.id == s.selectedTextBoxId)),
           selectedTextBoxId := none }

/-- The text-box "Deselect" button (ImageCanvas.tsx lines 938-947). -/
def deselectTextBox (s : CanvasState) : CanvasState :=
  { s with selectedTextBoxId := none }

/-- The "Clear All" button (ImageCanvas.tsx lines 951-973). -/
def clearAll (s : CanvasState) : CanvasState :=
  { s with selectedLineIndex := none, selectedTextBoxId := none, lines := [], textBoxes := [] }

/-- The curvature slider's `onChange` (ImageCanvas.tsx lines 885-890). -/
def setCurvature (s : CanvasState) (c : ℝ) : CanvasState :=
  { s with lines := s.lines.mapIdx (fun i line =>
      if s.selectedLineIndex = some i then { line with curvature := c } else line) }

/-- The `useEffect` on `imageUrl` (ImageCanvas.tsx lines 52-65): a newly
loaded image stores its natural dimensions and resets only the line list. -/
def imageLoad (s : CanvasState) (w h : ℝ) : CanvasState :=
  { s with dimensions := (w, h), lines := [] }

/-- One user-visible operation on the component. -/
inductive Op where
  | mouseDown (position : Point) (isDoubleClick : Bool) (freshSegId newTextBoxId : String)
  | mouseMove (position : Point)
  | mouseUp
  | mouseLeave
  | toggleAddTextBox
  | deselectLine
  | editSelectedTextBox
  | deleteSelectedTextBox
  | deselectTextBox
  | clearAll
  | setCurvature (c : ℝ)
  | finishEditing (id raw : String)
  | imageLoad (w h : ℝ)

/-- Applying one operation. -/
noncomputable def step (s : CanvasState) : Op → CanvasState
  | .mouseDown position isDoubleClick freshSegId newTextBoxId =>
      handleMouseDown s position isDoubleClick freshSegId newTextBoxId
  | .mouseMove position => handleMouseMove s position
  | .mouseUp => handleMouseUp s
  | .mouseLeave => handleMouseLeave s
  | .toggleAddTextBox => toggleAddTextBox s
  | .deselectLine => deselectLine s
  | .editSelectedTextBox => editSelectedTextBox s
  | .deleteSelectedTextBox => deleteSelectedTextBox s
  | .deselectTextBox => deselectTextBox s
  | .clearAll => clearAll s
  | .setCurvature c => setCurvature s c
  | .finishEditing id raw => finishEditing s id raw
  | .imageLoad w h => imageLoad s w h

/-- Applying a sequence of operations. -/
noncomputable def run (s : CanvasState) : List Op → CanvasState
  | [] => s
  | op :: ops => run (step s op) ops

/-- Mutual exclusivity of the two selections (spec: "at most one Arrow index
OR one TextBox id is selected at any time"). -/
def selectionExclusive (s : CanvasState) : Prop :=
  s.selectedLineIndex = none ∨ s.selectedTextBoxId = none

/-- A complete pointer gesture: down at `posDown`, one move to `posUp`,
then up (no double click; `fresh`/`tid` are the ids the handlers would
allocate). -/
noncomputable def gestureResult (s : CanvasState) (posDown posUp : Point)
    (fresh tid : String) : CanvasState :=
  handleMouseUp (handleMouseMove (handleMouseDown s posDown false fresh tid) posUp)

/-- A drawing-in-progress state: an extension gesture is active with an
in-progress arrow from (100,100) to (200,100) on segment "s1" (reachable
by pointer-down near an endpoint followed by a move). -/
def drawingState : CanvasState :=
  { initialState with
    isDrawing := true, extendingLine := true, currentSegmentId := some "s1",
    currentLine := some ⟨⟨100, 100⟩, ⟨200, 100⟩, none, 0, some "s1", some true⟩ }

/-- A state with one arrow, one text box and that text box selected. -/
def annotatedState : CanvasState :=
  { initialState with
    lines := [⟨⟨1, 2⟩, ⟨3, 4⟩, none, 0, none, none⟩],
    textBoxes := [⟨"t1", ⟨10, 20⟩, "hello", 150, 80, none, none⟩],
    selectedTextBoxId := some "t1" }

/-- Arrow A of the chaining scenario: (0,0) → (100,0), no segment id. -/
def chainA : Line := ⟨⟨0, 0⟩, ⟨100, 0⟩, none, 0, none, none⟩

/-- Arrow B of the chaining scenario: (300,0) → (400,0), no segment id. -/
def chainB : Line := ⟨⟨300, 0⟩, ⟨400, 0⟩, none, 0, none, none⟩

/-- The pre-chaining state holding exactly arrows A and B. -/
def chainState : CanvasState := { initialState with lines := [chainA, chainB] }

/-- Operation sequence refuting global selection exclusivity: start drawing,
move, arm text-box mode mid-gesture (clearing both selections), create a
text box with the next pointer-down (which leaves the drawing gesture
alive), then commit the in-progress arrow on pointer-up. -/
def exclusivityOps : List Op :=
  [Op.mouseDown ⟨100, 100⟩ false "s1" "t1",
   Op.mouseMove ⟨200, 100⟩,
   Op.toggleAddTextBox,
   Op.mouseDown ⟨400, 400⟩ false "s2" "t2",
   Op.mouseUp]

/-! ## Helper lemmas and claim theorems -/

/-- Unfold `distanceToPoint` to a `sqrt`. -/
lemma distanceToPoint_def (p1 p2 : Point) :
    distanceToPoint p1 p2 =
      Real.sqrt ((p2.x - p1.x) * (p2.x - p1.x) + (p2.y - p1.y) * (p2.y - p1.y)) := rfl

/-- Strict comparison of a point distance with a positive threshold reduces to
a comparison of squares (used to discharge hit-testing conditions on concrete
inputs). -/
lemma distanceToPoint_lt_iff (p1 p2 : Point) (c : ℝ) (hc : 0 < c) :
    distanceToPoint p1 p2 < c ↔
      (p2.x - p1.x) * (p2.x - p1.x) + (p2.y - p1.y) * (p2.y - p1.y) < c * c := by
  rw [distanceToPoint_def]
  rw [show c * c = c ^ 2 by ring]
  exact Real.sqrt_lt' hc

/-- Square root of a square times a nonnegative factor (used for the control
point distance). -/
lemma sqrt_sq_mul (c S : ℝ) :
    Real.sqrt ((c / 2) ^ 2 * S) = |c| * Real.sqrt S / 2 := by
  rw [Real.sqrt_mul (sq_nonneg (c / 2)), Real.sqrt_sq_eq_abs, abs_div, abs_two]
  ring

/-- C1: for distinct endpoints, `calculateControlPoint` returns the midpoint
of the segment offset perpendicularly by `curvature * length / 2`: its
coordinates are `mid - (dy, -dx) * c / 2`, it lies at distance
`|c| * |AB| / 2` from the midpoint, the offset is perpendicular to the
segment, and its side is determined by the sign of `c` (the cross product
with the segment direction equals `c / 2` times the positive squared
length). -/
theorem controlPoint_geometry (s e : Point) (c : ℝ) (h : s ≠ e) :
    (calculateControlPoint s e c).x = (s.x + e.x) / 2 - (e.y - s.y) * c / 2 ∧
    (calculateControlPoint s e c).y = (s.y + e.y) / 2 + (e.x - s.x) * c / 2 ∧
    distanceToPoint ⟨(s.x + e.x) / 2, (s.y + e.y) / 2⟩ (calculateControlPoint s e c)
      = |c| * distanceToPoint s e / 2 ∧
    ((calculateControlPoint s e c).x - (s.x + e.x) / 2) * (e.x - s.x)
      + ((calculateControlPoint s e c).y - (s.y + e.y) / 2) * (e.y - s.y) = 0 ∧
    (e.x - s.x) * ((calculateControlPoint s e c).y - (s.y + e.y) / 2)
      - (e.y - s.y) * ((calculateControlPoint s e c).x - (s.x + e.x) / 2)
      = c / 2 * ((e.x - s.x) * (e.x - s.x) + (e.y - s.y) * (e.y - s.y)) := by
  have hS : 0 < (e.x - s.x) * (e.x - s.x) + (e.y - s.y) * (e.y - s.y) := by
    rcases eq_or_ne (e.x - s.x) 0 with h1 | h1
    · rcases eq_or_ne (e.y - s.y) 0 with h2 | h2
      · exact absurd (Point.ext (by linarith) (by linarith)) h
      · nlinarith [mul_self_pos.mpr h2, mul_self_nonneg (e.x - s.x)]
    · nlinarith [mul_self_pos.mpr h1, mul_self_nonneg (e.y - s.y)]
  have hlen : 0 < Real.sqrt ((e.x - s.x) * (e.x - s.x) + (e.y - s.y) * (e.y - s.y)) :=
    Real.sqrt_pos.mpr hS
  have hlen' := ne_of_gt hlen
  have cpeq : calculateControlPoint s e c =
      ⟨(s.x + e.x) / 2 - (e.y - s.y) * c / 2, (s.y + e.y) / 2 + (e.x - s.x) * c / 2⟩ := by
    apply Point.ext
    · simp only [calculateControlPoint]
      field_simp
      ring
    · simp only [calculateControlPoint]
      field_simp
  refine ⟨by rw [cpeq], by rw [cpeq], ?_, ?_, ?_⟩
  · rw [cpeq, distanceToPoint_def, distanceToPoint_def]
    dsimp only
    rw [show ((s.x + e.x) / 2 - (e.y - s.y) * c / 2 - (s.x + e.x) / 2) *
          ((s.x + e.x) / 2 - (e.y - s.y) * c / 2 - (s.x + e.x) / 2)
        + ((s.y + e.y) / 2 + (e.x - s.x) * c / 2 - (s.y + e.y) / 2) *
          ((s.y + e.y) / 2 + (e.x - s.x) * c / 2 - (s.y + e.y) / 2)
        = (c / 2) ^ 2 * ((e.x - s.x) * (e.x - s.x) + (e.y - s.y) * (e.y - s.y)) from by ring]
    rw [sqrt_sq_mul]
  · rw [cpeq]
    dsimp only
    ring
  · rw [cpeq]
    dsimp only
    ring

/-- C1 witness: the theorem instantiated at `(0,0) → (4,0)`, curvature `1/2`. -/
theorem controlPoint_geometry_witness :
    ((⟨0, 0⟩ : Point) ≠ (⟨4, 0⟩ : Point)) ∧
    ((calculateControlPoint ⟨0, 0⟩ ⟨4, 0⟩ (1 / 2)).x
        = ((0 : ℝ) + 4) / 2 - ((0 : ℝ) - 0) * (1 / 2) / 2 ∧
      (calculateControlPoint ⟨0, 0⟩ ⟨4, 0⟩ (1 / 2)).y
        = ((0 : ℝ) + 0) / 2 + ((4 : ℝ) - 0) * (1 / 2) / 2 ∧
      distanceToPoint ⟨((0 : ℝ) + 4) / 2, ((0 : ℝ) + 0) / 2⟩
          (calculateControlPoint ⟨0, 0⟩ ⟨4, 0⟩ (1 / 2))
        = |(1 : ℝ) / 2| * distanceToPoint ⟨0, 0⟩ ⟨4, 0⟩ / 2 ∧
      ((calculateControlPoint ⟨0, 0⟩ ⟨4, 0⟩ (1 / 2)).x - ((0 : ℝ) + 4) / 2) * ((4 : ℝ) - 0)
        + ((calculateControlPoint ⟨0, 0⟩ ⟨4, 0⟩ (1 / 2)).y - ((0 : ℝ) + 0) / 2) * ((0 : ℝ) - 0) = 0 ∧
      ((4 : ℝ) - 0) * ((calculateControlPoint ⟨0, 0⟩ ⟨4, 0⟩ (1 / 2)).y - ((0 : ℝ) + 0) / 2)
        - ((0 : ℝ) - 0) * ((calculateControlPoint ⟨0, 0⟩ ⟨4, 0⟩ (1 / 2)).x - ((0 : ℝ) + 4) / 2)
        = (1 : ℝ) / 2 / 2 * (((4 : ℝ) - 0) * ((4 : ℝ) - 0) + ((0 : ℝ) - 0) * ((0 : ℝ) - 0))) :=
  ⟨by intro hc; have := congrArg Point.x hc; norm_num at this,
   controlPoint_geometry ⟨0, 0⟩ ⟨4, 0⟩ (1 / 2)
     (by intro hc; have := congrArg Point.x hc; norm_num at this)⟩

/-- C4: for a zero-length arrow (`start = end`), the perpendicular-vector
normalisation in `calculateControlPoint` divides by zero (the computed
length is `0`), so the `jsDiv`-tracking translation yields no finite
control point. -/
theorem zeroLength_controlPoint_div_by_zero (start «end» : Point) (c : ℝ)
    (h : start = «end») :
    calculateControlPointFin start «end» c = none ∧
    Real.sqrt ((«end».x - start.x) * («end».x - start.x)
      + («end».y - start.y) * («end».y - start.y)) = 0 := by
  subst h
  constructor
  · simp [calculateControlPointFin, jsDiv]
  · simp

/-- C4 witness: a concrete zero-length arrow. -/
theorem zeroLength_controlPoint_div_by_zero_witness :
    calculateControlPointFin ⟨5, 7⟩ ⟨5, 7⟩ (3 / 10) = none ∧
    Real.sqrt (((5 : ℝ) - 5) * ((5 : ℝ) - 5) + ((7 : ℝ) - 7) * ((7 : ℝ) - 7)) = 0 :=
  zeroLength_controlPoint_div_by_zero ⟨5, 7⟩ ⟨5, 7⟩ (3 / 10) rfl

/-- C10: `distanceToLineSegment` is total — its single division is guarded by
the `lenSq ≠ 0` check (the `jsDiv`-tracking translation always returns a
finite result) — and on a degenerate segment (`start = end`) it returns the
Euclidean distance from the query point to `start`. -/
theorem distanceToLineSegment_total (p a b : Point) :
    distanceToLineSegmentFin p a b = some (distanceToLineSegment p a b) ∧
    distanceToLineSegment p a a = distanceToPoint p a := by
  constructor
  · by_cases hL : (b.x - a.x) * (b.x - a.x) + (b.y - a.y) * (b.y - a.y) = 0
    · simp [distanceToLineSegmentFin, distanceToLineSegment, jsDiv, hL]
    · simp [distanceToLineSegmentFin, distanceToLineSegment, jsDiv, hL]
  · have hz : (a.x - a.x) * (a.x - a.x) + (a.y - a.y) * (a.y - a.y) = 0 := by ring
    simp only [distanceToLineSegment, distanceToPoint, hz]
    norm_num
    congr 1
    ring

/-- `round2` fixes integers. -/
lemma round2_intCast (n : ℤ) : round2 ((n : ℝ)) = (n : ℝ) := by
  unfold round2
  rw [show ((n : ℝ) * 100) = ((n * 100 : ℤ) : ℝ) by push_cast; ring, round_intCast]
  push_cast
  ring

lemma round2_100 : round2 (100 : ℝ) = 100 := by
  have h := round2_intCast 100
  norm_num at h
  exact h

lemma round2_200 : round2 (200 : ℝ) = 200 := by
  have h := round2_intCast 200
  norm_num at h
  exact h

lemma round2_zero : round2 (0 : ℝ) = 0 := by
  have h := round2_intCast 0
  norm_num at h
  exact h

/-- The standalone-arrow export of the 800×600 scenario arrow. -/
lemma exportArrowEntry_scenario :
    exportArrowEntry ⟨⟨100, 100⟩, ⟨200, 100⟩, none, 0, none, none⟩
      = ⟨100, 100, 200, 100, none, none, 100, 0⟩ := by
  unfold exportArrowEntry
  have hsq : Real.sqrt ((10000 : ℝ)) = 100 := by
    rw [show (10000 : ℝ) = 100 ^ 2 by norm_num]
    exact Real.sqrt_sq (by norm_num)
  have hat : atan2 (round2 100 - round2 100) (round2 200 - round2 100) = 0 := by
    rw [round2_100, round2_200]
    norm_num [atan2]
  dsimp only
  rw [hat]
  rw [show round2 200 - round2 100 = 100 by rw [round2_100, round2_200]; norm_num]
  rw [show round2 100 - round2 100 = 0 by norm_num]
  rw [show (100 : ℝ) * 100 + 0 * 0 = 10000 by norm_num, hsq]
  rw [show (0 : ℝ) * (180 / Real.pi) = 0 by norm_num]
  rw [round2_100, round2_200, round2_zero]
  norm_num

/-- C6: for the 800×600 scenario with the single arrow (100,100)→(200,100),
curvature 0, the exporter reports start (100,100), end (200,100), length
100.00 and angle 0.00 (the code prints the rounded values `100` and `0`,
i.e. `100.00` and `0.00` to two decimals), as a standalone arrow block plus
the corresponding JSON entry. -/
theorem export_scenario_report :
    formatCoordinates [⟨⟨100, 100⟩, ⟨200, 100⟩, none, 0, none, none⟩] [] 800 600
      = ExportDoc.doc [] [⟨100, 100, 200, 100, none, none, 100, 0⟩] []
          [⟨100, 100, 200, 100, 0, none, none⟩] [] := by
  unfold formatCoordinates
  rw [if_neg (by norm_num)]
  simp only [groupLinesBySegment, List.foldl, insertSegment, List.map,
    exportArrowEntry_scenario, jsonLineEntry]
  norm_num [round2_100, round2_200]

/-- C2 counterexample: the exporter emits no normalized variant.  For the
800×600 scenario state, the output is identical with image dimensions 1×1,
and the exported start x-coordinate is the absolute `100` — not `100/800`,
which differs from it.  (The `imageWidth`/`imageHeight` props are never
read by `formatCoordinates`.) -/
theorem no_normalized_export_cex :
    formatCoordinates [⟨⟨100, 100⟩, ⟨200, 100⟩, none, 0, none, none⟩] [] 800 600
      = formatCoordinates [⟨⟨100, 100⟩, ⟨200, 100⟩, none, 0, none, none⟩] [] 1 1 ∧
    (exportArrowEntry ⟨⟨100, 100⟩, ⟨200, 100⟩, none, 0, none, none⟩).startX = 100 ∧
    (100 : ℝ) / 800 ≠ 100 :=
  ⟨rfl, by rw [exportArrowEntry_scenario], by norm_num⟩

/-- C2 amended: the exporter's output is independent of the image
dimensions and reports absolute pixel coordinates rounded to two decimal
places (human-readable blocks plus a JSON literal); no normalized (0–1)
variant is emitted. -/
theorem exporter_absolute_not_normalized (lines : List Line) (textBoxes : List TextBox)
    (w h w' h' : ℝ) (line : Line) :
    formatCoordinates lines textBoxes w h = formatCoordinates lines textBoxes w' h' ∧
    (jsonLineEntry line).startX = round2 line.start.x ∧
    (exportArrowEntry line).startX = round2 line.start.x ∧
    (exportArrowEntry line).endY = round2 line.«end».y :=
  ⟨rfl, rfl, rfl, rfl⟩

/-- C5 counterexample: loading a new image over a state with one arrow, one
text box and a selected text box leaves the text-box list non-empty and the
selection in place — the claim that image load "empties both the Arrow list
and the TextBox list and resets the selection state" is false. -/
theorem imageLoad_keeps_textBoxes_cex :
    (imageLoad annotatedState 800 600).textBoxes ≠ [] ∧
    (imageLoad annotatedState 800 600).selectedTextBoxId = some "t1" :=
  ⟨by simp [imageLoad, annotatedState, initialState], rfl⟩

/-- C5 amended: loading a new image stores the new natural dimensions and
empties only the Arrow list; the TextBox list and both selections are left
unchanged. -/
theorem imageLoad_resets_only_lines (s : CanvasState) (w h : ℝ) :
    (imageLoad s w h).lines = [] ∧
    (imageLoad s w h).dimensions = (w, h) ∧
    (imageLoad s w h).textBoxes = s.textBoxes ∧
    (imageLoad s w h).selectedLineIndex = s.selectedLineIndex ∧
    (imageLoad s w h).selectedTextBoxId = s.selectedTextBoxId :=
  ⟨rfl, rfl, rfl, rfl, rfl⟩

/-- C7: a pointer event whose display coordinates fall outside the displayed
image bounds makes `getScaledCoordinates` return the sentinel `(-1,-1)`,
and pointer-down / pointer-move at the sentinel return immediately with the
state unchanged. -/
theorem out_of_bounds_ignored (dims : ℝ × ℝ)
    (rectLeft rectTop rectWidth rectHeight displayedWidth displayedHeight
      clientX clientY : ℝ)
    (s : CanvasState) (isDbl : Bool) (fid tid : String)
    (hdim : dims.1 ≠ 0)
    (hout : clientX - rectLeft - (rectWidth - displayedWidth) / 2 < 0 ∨
            clientX - rectLeft - (rectWidth - displayedWidth) / 2 > displayedWidth ∨
            clientY - rectTop - (rectHeight - displayedHeight) / 2 < 0 ∨
            clientY - rectTop - (rectHeight - displayedHeight) / 2 > displayedHeight) :
    getScaledCoordinates dims rectLeft rectTop rectWidth rectHeight displayedWidth
        displayedHeight clientX clientY = ⟨-1, -1⟩ ∧
    handleMouseDown s ⟨-1, -1⟩ isDbl fid tid = s ∧
    handleMouseMove s ⟨-1, -1⟩ = s := by
  refine ⟨?_, ?_, ?_⟩
  · unfold getScaledCoordinates
    rw [if_neg hdim]
    dsimp only
    rw [if_pos hout]
  · unfold handleMouseDown
    rw [if_pos (Or.inl rfl)]
  · unfold handleMouseMove
    rw [if_pos (Or.inl rfl)]

/-- C7 witness: with an 800×600 image displayed at 400×300 in a 400×300
rect at the origin, a click at client (500,100) is out of bounds; the
sentinel is produced and both handlers leave the initial state unchanged. -/
theorem out_of_bounds_ignored_witness :
    getScaledCoordinates (800, 600) 0 0 400 300 400 300 500 100 = ⟨-1, -1⟩ ∧
    handleMouseDown initialState ⟨-1, -1⟩ false "a" "b" = initialState ∧
    handleMouseMove initialState ⟨-1, -1⟩ = initialState :=
  out_of_bounds_ignored (800, 600) 0 0 400 300 400 300 500 100 initialState false "a" "b"
    (by norm_num) (by norm_num)

/-- C9 counterexample: on the drawing-in-progress state, pointer-leave does
not select the committed arrow and does not reset the extension state,
while pointer-up does — so pointer-leave is not "pointer-up minus chaining
with the new arrow selected and the drawing/extension state reset
identically". -/
theorem mouseLeave_differs_from_mouseUp_cex :
    (handleMouseLeave drawingState).selectedLineIndex = none ∧
    (handleMouseLeave drawingState).extendingLine = true ∧
    (handleMouseLeave drawingState).currentSegmentId = some "s1" ∧
    (handleMouseUp drawingState).selectedLineIndex = some 0 ∧
    (handleMouseUp drawingState).extendingLine = false ∧
    (handleMouseUp drawingState).currentSegmentId = none :=
  ⟨rfl, rfl, rfl, rfl, rfl, rfl⟩

/-- C9 amended: pointer-leave while drawing appends the in-progress arrow
as-is (curvature as stored, unlike pointer-up's forced 0) and clears only
`currentLine` and `isDrawing`; it does not select the new arrow and does
not reset `extendingLine` or `currentSegmentId`. -/
theorem mouseLeave_commits_in_progress (s : CanvasState) (cl : Line)
    (hd : s.isDrawing = true) (hc : s.currentLine = some cl) :
    handleMouseLeave s =
      { s with lines := s.lines ++ [cl], currentLine := none, isDrawing := false } := by
  unfold handleMouseLeave
  rw [hd, hc]

/-- C9 witness: the amended theorem applied to the concrete
drawing-in-progress state. -/
theorem mouseLeave_commits_in_progress_witness :
    handleMouseLeave drawingState =
      { drawingState with
        lines := drawingState.lines ++ [⟨⟨100, 100⟩, ⟨200, 100⟩, none, 0, some "s1", some true⟩],
        currentLine := none, isDrawing := false } :=
  mouseLeave_commits_in_progress drawingState
    ⟨⟨100, 100⟩, ⟨200, 100⟩, none, 0, some "s1", some true⟩ rfl rfl

/-- C8 amended: from any gesture-quiescent state (no drawing in progress, no
in-progress arrow, no text-box drag) in which selection is mutually
exclusive and armed text-box placement implies no arrow is selected, every
single operation yields a state with at most one of the two selections
non-null. -/
theorem step_preserves_selectionExclusive (s : CanvasState) (op : Op)
    (hdraw : s.isDrawing = false) (hcl : s.currentLine = none)
    (hdrag : s.isDraggingTextBox = false)
    (hadd : s.isAddingTextBox = true → s.selectedLineIndex = none)
    (hex : selectionExclusive s) :
    selectionExclusive (step s op) := by
  cases op with
  | mouseDown position isDoubleClick freshSegId newTextBoxId =>
    simp only [step, handleMouseDown]
    split
    · exact hex
    · cases hFCT : findClickedTextBox s.textBoxes position with
      | some v =>
        obtain ⟨textBoxId, isResize⟩ := v
        simp only
        split
        · exact Or.inl rfl
        · split
          · exact Or.inl rfl
          · cases hfind : s.textBoxes.find? (fun box => box.id == textBoxId) with
            | some textBox => exact Or.inl rfl
            | none => exact Or.inl rfl
      | none =>
        simp only
        split
        · rename_i haddT
          exact Or.inl (hadd haddT)
        · cases hFLE : findLineEndPoint s.lines position with
          | some v =>
            obtain ⟨lineIndex, isStart⟩ := v
            dsimp only
            cases hget : s.lines.get? lineIndex with
            | some line => exact Or.inl rfl
            | none => exact hex
          | none =>
            dsimp only
            cases hFCL : findClickedLine s.lines position with
            | some clickedLineIndex => exact Or.inr rfl
            | none => exact Or.inl rfl
  | mouseMove position =>
    simp only [step, handleMouseMove]
    split
    · exact hex
    · cases hsel : s.selectedTextBoxId with
      | some id =>
        rw [hdrag]
        simp only [hdraw, hcl]
        exact hex
      | none =>
        simp only [hdraw, hcl]
        exact hex
  | mouseUp =>
    simp only [step, handleMouseUp, hdrag, hdraw]
    simp only [Bool.false_eq_true, if_false]
    exact hex
  | mouseLeave =>
    simp only [step, handleMouseLeave, hdraw]
    exact hex
  | toggleAddTextBox => exact Or.inl rfl
  | deselectLine => exact Or.inl rfl
  | editSelectedTextBox =>
    simp only [step, editSelectedTextBox]
    cases hsel : s.selectedTextBoxId with
    | some id =>
      rcases hex with h1 | h2
      · exact Or.inl h1
      · rw [hsel] at h2
        exact absurd h2 (by simp)
    | none => exact hex
  | deleteSelectedTextBox => exact Or.inr rfl
  | deselectTextBox => exact Or.inr rfl
  | clearAll => exact Or.inl rfl
  | setCurvature c => exact hex
  | finishEditing id raw => exact hex
  | imageLoad w h => exact hex

/-- C8 counterexample: running `exclusivityOps` from the initial state
reaches a state in which an arrow index AND a text box id are both
selected, refuting exclusivity over arbitrary operation sequences (the
pointer-up commit selects the new arrow without clearing the text-box
selection created mid-gesture). -/
theorem selection_exclusivity_cex :
    ((run initialState exclusivityOps).selectedLineIndex).isSome = true ∧
    ((run initialState exclusivityOps).selectedTextBoxId).isSome = true := by
  have h1 : step initialState (Op.mouseDown ⟨100, 100⟩ false "s1" "t1") =
      { initialState with
        isDrawing := true,
        currentLine := some ⟨⟨100, 100⟩, ⟨100, 100⟩, none, 0, none, none⟩ } := by
    simp only [step]
    unfold handleMouseDown
    rw [if_neg (by norm_num)]
    rfl
  have h2 : step { initialState with
        isDrawing := true,
        currentLine := some ⟨⟨100, 100⟩, ⟨100, 100⟩, none, 0, none, none⟩ }
      (Op.mouseMove ⟨200, 100⟩) =
      { initialState with
        isDrawing := true,
        currentLine := some ⟨⟨100, 100⟩, ⟨200, 100⟩, none, 0, none, none⟩ } := by
    simp only [step]
    unfold handleMouseMove
    rw [if_neg (by norm_num)]
    rfl
  have h3 : step { initialState with
        isDrawing := true,
        currentLine := some ⟨⟨100, 100⟩, ⟨200, 100⟩, none, 0, none, none⟩ }
      Op.toggleAddTextBox =
      { initialState with
        isDrawing := true,
        currentLine := some ⟨⟨100, 100⟩, ⟨200, 100⟩, none, 0, none, none⟩,
        isAddingTextBox := true } := rfl
  have h4 : step { initialState with
        isDrawing := true,
        currentLine := some ⟨⟨100, 100⟩, ⟨200, 100⟩, none, 0, none, none⟩,
        isAddingTextBox := true }
      (Op.mouseDown ⟨400, 400⟩ false "s2" "t2") =
      { initialState with
        isDrawing := true,
        currentLine := some ⟨⟨100, 100⟩, ⟨200, 100⟩, none, 0, none, none⟩,
        isAddingTextBox := false,
        textBoxes := [⟨"t2", ⟨400, 400⟩, "Double-click to edit", 150, 80, none, some false⟩],
        selectedTextBoxId := some "t2" } := by
    simp only [step]
    unfold handleMouseDown
    rw [if_neg (by norm_num)]
    rfl
  have h5 : step { initialState with
        isDrawing := true,
        currentLine := some ⟨⟨100, 100⟩, ⟨200, 100⟩, none, 0, none, none⟩,
        isAddingTextBox := false,
        textBoxes := [⟨"t2", ⟨400, 400⟩, "Double-click to edit", 150, 80, none, some false⟩],
        selectedTextBoxId := some "t2" }
      Op.mouseUp =
      { initialState with
        lines := [⟨⟨100, 100⟩, ⟨200, 100⟩, none, 0, none, none⟩],
        selectedLineIndex := some 0,
        textBoxes := [⟨"t2", ⟨400, 400⟩, "Double-click to edit", 150, 80, none, some false⟩],
        selectedTextBoxId := some "t2" } := rfl
  have hrun : run initialState exclusivityOps =
      { initialState with
        lines := [⟨⟨100, 100⟩, ⟨200, 100⟩, none, 0, none, none⟩],
        selectedLineIndex := some 0,
        textBoxes := [⟨"t2", ⟨400, 400⟩, "Double-click to edit", 150, 80, none, some false⟩],
        selectedTextBoxId := some "t2" } := by
    simp only [exclusivityOps, run]
    rw [h1, h2, h3, h4, h5]
  rw [hrun]
  exact ⟨rfl, rfl⟩

/-- C8 amended witness: the preservation theorem applied to the initial
state and the "Clear All" operation. -/
theorem step_preserves_selectionExclusive_witness :
    (initialState.isDrawing = false ∧ initialState.currentLine = none ∧
      initialState.isDraggingTextBox = false ∧
      (initialState.isAddingTextBox = true → initialState.selectedLineIndex = none) ∧
      selectionExclusive initialState) ∧
    selectionExclusive (step initialState Op.clearAll) :=
  ⟨⟨rfl, rfl, rfl, fun _ => rfl, Or.inl rfl⟩,
   step_preserves_selectionExclusive initialState Op.clearAll rfl rfl rfl
     (fun _ => rfl) (Or.inl rfl)⟩

/-- C3: from a state with arrows A (no segment id) and B, pointer-down
within 15px of A's end (and not of A's start), then pointer-up within 15px
of B's start (B in a different segment, and the release point not near A's
endpoints) makes A, B and the newly drawn arrow share the fresh segment id,
with B the unique end-of-chain (`isEndSegment = some true`) and the new
arrow's flag cleared. -/
theorem chaining_merges_segments (s : CanvasState) (A B : Line)
    (posDown posUp : Point) (fresh tid : String)
    (hlines : s.lines = [A, B])
    (htb : s.textBoxes = [])
    (hadd : s.isAddingTextBox = false)
    (hdragTB : s.isDraggingTextBox = false)
    (hAseg : A.segmentId = none)
    (hBseg : B.segmentId ≠ some fresh)
    (hdx : posDown.x ≠ -1) (hdy : posDown.y ≠ -1)
    (hux : posUp.x ≠ -1) (huy : posUp.y ≠ -1)
    (hdAs : ¬ distanceToPoint posDown A.start < 15)
    (hdAe : distanceToPoint posDown A.«end» < 15)
    (huAs : ¬ distanceToPoint posUp A.start < 15)
    (huAe : ¬ distanceToPoint posUp A.«end» < 15)
    (huBs : distanceToPoint posUp B.start < 15) :
    (gestureResult s posDown posUp fresh tid).lines =
      [{ A with segmentId := some fresh, isEndSegment := some false },
       { B with segmentId := some fresh, isEndSegment := some true },
       { start := A.«end», «end» := B.start, controlPoint := none, curvature := 0,
         segmentId := some fresh, isEndSegment := some false }] ∧
    (gestureResult s posDown posUp fresh tid).lines.map Line.segmentId =
      [some fresh, some fresh, some fresh] ∧
    (gestureResult s posDown posUp fresh tid).lines.map Line.isEndSegment =
      [some false, some true, some false] := by
  have hFCT : findClickedTextBox s.textBoxes posDown = none := by
    rw [htb]
    rfl
  have hFLEd : findLineEndPoint s.lines posDown = some (0, false) := by
    rw [hlines]
    simp only [findLineEndPoint, findLineEndPointAux]
    rw [if_neg hdAs, if_pos hdAe]
  have hdown : handleMouseDown s posDown false fresh tid =
      { s with
        selectedTextBoxId := none,
        isDrawing := true, extendingLine := true,
        lines := [{ A with segmentId := some fresh, isEndSegment := some false }, B],
        currentSegmentId := some fresh,
        currentLine := some ⟨A.«end», posDown, none, 0, some fresh, some true⟩,
        selectedLineIndex := none } := by
    unfold handleMouseDown
    rw [if_neg (not_or.mpr ⟨hdx, hdy⟩), hFCT]
    dsimp only
    rw [hadd]
    simp only [Bool.false_eq_true, if_false]
    rw [hFLEd]
    dsimp only
    rw [hlines]
    simp only [List.get?]
    rw [hAseg]
    dsimp only
    simp only [List.set, Bool.false_eq_true, if_false]
  have hmove : handleMouseMove
      { s with
        selectedTextBoxId := none,
        isDrawing := true, extendingLine := true,
        lines := [{ A with segmentId := some fresh, isEndSegment := some false }, B],
        currentSegmentId := some fresh,
        currentLine := some ⟨A.«end», posDown, none, 0, some fresh, some true⟩,
        selectedLineIndex := none } posUp =
      { s with
        selectedTextBoxId := none,
        isDrawing := true, extendingLine := true,
        lines := [{ A with segmentId := some fresh, isEndSegment := some false }, B],
        currentSegmentId := some fresh,
        currentLine := some ⟨A.«end», posUp, none, 0, some fresh, some true⟩,
        selectedLineIndex := none } := by
    unfold handleMouseMove
    rw [if_neg (not_or.mpr ⟨hux, huy⟩)]
  have hFLEu : findLineEndPoint
      [{ A with segmentId := some fresh, isEndSegment := some false }, B] posUp
      = some (1, true) := by
    simp only [findLineEndPoint, findLineEndPointAux]
    rw [if_neg huAs, if_neg huAe, if_pos huBs]
  have hup : handleMouseUp
      { s with
        selectedTextBoxId := none,
        isDrawing := true, extendingLine := true,
        lines := [{ A with segmentId := some fresh, isEndSegment := some false }, B],
        currentSegmentId := some fresh,
        currentLine := some ⟨A.«end», posUp, none, 0, some fresh, some true⟩,
        selectedLineIndex := none } =
      { s with
        selectedTextBoxId := none,
        isDrawing := false, extendingLine := false,
        lines := [{ A with segmentId := some fresh, isEndSegment := some false },
                  { B with segmentId := some fresh, isEndSegment := some true },
                  { start := A.«end», «end» := B.start, controlPoint := none, curvature := 0,
                    segmentId := some fresh, isEndSegment := some false }],
        currentSegmentId := none,
        currentLine := none,
        selectedLineIndex := some 2 } := by
    unfold handleMouseUp
    dsimp only
    rw [hdragTB]
    simp only [Bool.false_eq_true, if_false]
    rw [hFLEu]
    dsimp only
    simp only [List.get?]
    rw [if_pos hBseg]
    simp only [List.set, List.map, List.length]
    norm_num [List.cons_append, List.nil_append]
  unfold gestureResult
  rw [hdown, hmove, hup]
  refine ⟨rfl, ?_, ?_⟩
  · simp only [List.map]
  · simp only [List.map]

/-- C3 witness: the chaining theorem applied to concrete arrows
A = (0,0)→(100,0) and B = (300,0)→(400,0), pointer-down exactly on A's end
and pointer-up exactly on B's start. -/
theorem chaining_merges_segments_witness :
    (gestureResult chainState ⟨100, 0⟩ ⟨300, 0⟩ "seg1" "tb1").lines.map Line.segmentId =
      [some "seg1", some "seg1", some "seg1"] ∧
    (gestureResult chainState ⟨100, 0⟩ ⟨300, 0⟩ "seg1" "tb1").lines.map Line.isEndSegment =
      [some false, some true, some false] := by
  have h := chaining_merges_segments chainState chainA chainB ⟨100, 0⟩ ⟨300, 0⟩ "seg1" "tb1"
    rfl rfl rfl rfl rfl
    (by simp [chainB])
    (by norm_num) (by norm_num) (by norm_num) (by norm_num)
    (by rw [distanceToPoint_lt_iff _ _ 15 (by norm_num)]; norm_num [chainA])
    (by rw [distanceToPoint_lt_iff _ _ 15 (by norm_num)]; norm_num [chainA])
    (by rw [distanceToPoint_lt_iff _ _ 15 (by norm_num)]; norm_num [chainA])
    (by rw [distanceToPoint_lt_iff _ _ 15 (by norm_num)]; norm_num [chainA])
    (by rw [distanceToPoint_lt_iff _ _ 15 (by norm_num)]; norm_num [chainB])
  exact ⟨h.2.1, h.2.2⟩

end Annotator
